import Mathlib

/-!
Shallow embedding of `src/include/rws/connector.hpp` (the `rws::Connector`
topic-multiplexing connector) and proofs about it.

Modelling conventions:
* `rclcpp::Time` and `rclcpp::Duration` are nanosecond counts, embedded as `Int`
  (`topic_params::throttle_rate` equality in the source is nanosecond equality).
* Transport subscriptions and publications created through the node interface are
  identified by freshly allocated `Nat` ids (`next_resource_id`); the state keeps a
  log of the QoS of each resource created, so "how many transport resources were
  created" is the length of that log.
* Callbacks are opaque: a callback is a `Nat` identity, and dispatch records
  delivery events `(handle_id, timestamp)` instead of invoking functions.
* The clock `node_->now()` is a function `Nat → Int` from call index to reading:
  the k-th call to `now()` during a dispatch returns `clock k`.  Monotonicity of
  the clock is a hypothesis where a theorem needs it.
* The detached replay thread of `subscribe_to_topic` is modelled separately
  (`replay_exited` below) as a function of the spin-iteration index and of when
  (if ever) the temporary subscription delivers a message.
-/

namespace rws

/-- Durability policy of a QoS profile (`rclcpp::DurabilityPolicy`). -/
inductive Durability
  | TransientLocal
  | Volatile
deriving DecidableEq, Repr

/-- Reliability policy of a QoS profile (`rclcpp::ReliabilityPolicy`). -/
inductive Reliability
  | Reliable
  | BestEffort
deriving DecidableEq, Repr

/-- The slice of `rclcpp::QoS` the connector reads and writes: history depth,
durability and reliability.  `rclcpp::QoS(depth)` defaults to volatile durability
and reliable reliability. -/
structure QoS where
  history_depth : Nat
  durability : Durability
  reliability : Reliability
deriving DecidableEq, Repr

/-- One publisher descriptor returned by
`node_->get_publishers_info_by_topic(topic)`: the durability and reliability of
its rmw QoS profile (the only fields `subscribe_to_topic` reads). -/
structure PubInfo where
  durability : Durability
  reliability : Reliability
deriving DecidableEq, Repr

/-- `rws::topic_params` (connector.hpp lines 17-47).  Durations are nanosecond
counts, so `throttle_rate : Int`. -/
structure topic_params where
  history_depth : Nat
  compression : String
  topic : String
  type : String
  latch : Bool
  throttle_rate : Int
deriving DecidableEq, Repr

/-- `topic_params::operator==` (connector.hpp lines 32-40): conjunction of
field-by-field equality of all six fields, in source order. -/
def params_eq (a p : topic_params) : Bool :=
  a.topic == p.topic &&
  a.type == p.type &&
  a.history_depth == p.history_depth &&
  a.throttle_rate == p.throttle_rate &&
  a.compression == p.compression &&
  a.latch == p.latch

/-- `Connector::subscriber_handle` (connector.hpp lines 166-174).  `subscription`
is the id of the shared transport subscription; `callback` is the opaque identity
of the stored `subscription_callback`; `last_sent` is `rclcpp::Time` in ns,
initialised to `rclcpp::Time(0, 0, RCL_ROS_TIME)` = 0. -/
structure subscriber_handle where
  subscription : Nat
  params : topic_params
  callback : Nat
  client_id : Nat
  handle_id : Nat
  last_sent : Int
deriving DecidableEq, Repr

/-- `Connector::publisher_handle` (connector.hpp lines 175-181).  `publisher` is
the id of the shared transport publication. -/
structure publisher_handle where
  publisher : Nat
  params : topic_params
  client_id : Nat
  handle_id : Nat
deriving DecidableEq, Repr

/-- The node interface as `subscribe_to_topic` consumes it:
`get_publishers_info_by_topic` per topic name.  Resource factories are modelled
inside the connector state by fresh-id allocation. -/
structure NodeEnv where
  pub_info : String → List PubInfo

/-- The mutable state of a `Connector`: the two registries, the shared handle-id
counter `next_handler_id_` (connector.hpp line 188), a fresh-id source for
transport resources, and creation logs recording the QoS of every transport
subscription / publication created through the node interface. -/
structure ConnectorState where
  subscribers : List subscriber_handle
  publishers : List publisher_handle
  next_handler_id : Nat
  next_resource_id : Nat
  sub_creations : List QoS
  pub_creations : List QoS
  spawned_replays : Nat
deriving Repr

/-- A fresh connector, as constructed by `Connector(node)`: empty registries,
`next_handler_id_ = 0`. -/
def initState : ConnectorState :=
  { subscribers := []
    publishers := []
    next_handler_id := 0
    next_resource_id := 0
    sub_creations := []
    pub_creations := []
    spawned_replays := 0 }

/-- `Connector::get_subscriber_by_params` (connector.hpp lines 190-198): linear
scan of the subscriber registry, returning the first entry whose params compare
equal (`sub.params == params`). -/
def get_subscriber_by_params : List subscriber_handle → topic_params → Option subscriber_handle
  | [], _ => none
  | sub :: rest, params =>
      if params_eq sub.params params then some sub
      else get_subscriber_by_params rest params

/-- `Connector::get_publisher_by_params` (connector.hpp lines 200-208). -/
def get_publisher_by_params : List publisher_handle → topic_params → Option publisher_handle
  | [], _ => none
  | pub :: rest, params =>
      if params_eq pub.params params then some pub
      else get_publisher_by_params rest params

/-- The QoS-derivation loop of `subscribe_to_topic` (connector.hpp lines 66-72):
start from `rclcpp::QoS(params.history_depth)` (volatile / reliable defaults) and
for each publisher descriptor in order overwrite durability and reliability with
that descriptor's values. -/
def derive_qos (depth : Nat) (info : List PubInfo) : QoS :=
  info.foldl
    (fun q i => { q with durability := i.durability, reliability := i.reliability })
    { history_depth := depth, durability := Durability.Volatile, reliability := Reliability.Reliable }

/-- `is_transient_local` (connector.hpp line 74): the derived durability is
transient-local. -/
def is_transient_local (q : QoS) : Bool :=
  q.durability == Durability.TransientLocal

/-- Result of `subscribe_to_topic`: the new state and the `handle_id` captured by
the returned revocation closure. -/
structure SubscribeResult where
  state : ConnectorState
  handle_id : Nat
deriving Repr

/-- `Connector::subscribe_to_topic` (connector.hpp lines 59-117).  Looks up an
existing registration with equal params; derives the effective QoS from the
publishers reported for the topic; if no match exists, creates a new transport
subscription (fresh resource id, QoS appended to the creation log); otherwise
reuses the match's subscription and, when the derived durability is
transient-local, spawns the detached one-shot replay thread (counted in
`spawned_replays`; its body is modelled by `replay_exited` below).  The new
handle (with `last_sent = 0` and the next handler id) is appended to the
registry. -/
def subscribe_to_topic (env : NodeEnv) (st : ConnectorState) (client_id : Nat)
    (params : topic_params) (callback : Nat) : SubscribeResult :=
  let matching := get_subscriber_by_params st.subscribers params
  let handle_id := st.next_handler_id
  let qos := derive_qos params.history_depth (env.pub_info params.topic)
  match matching with
  | none =>
      let handle : subscriber_handle :=
        { subscription := st.next_resource_id
          params := params
          callback := callback
          client_id := client_id
          handle_id := handle_id
          last_sent := 0 }
      { state :=
          { st with
            subscribers := st.subscribers ++ [handle]
            next_handler_id := handle_id + 1
            next_resource_id := st.next_resource_id + 1
            sub_creations := st.sub_creations ++ [qos] }
        handle_id := handle_id }
  | some m =>
      let handle : subscriber_handle :=
        { subscription := m.subscription
          params := params
          callback := callback
          client_id := client_id
          handle_id := handle_id
          last_sent := 0 }
      { state :=
          { st with
            subscribers := st.subscribers ++ [handle]
            next_handler_id := handle_id + 1
            spawned_replays :=
              st.spawned_replays + (if is_transient_local qos then 1 else 0) }
        handle_id := handle_id }

/-- Body of the revocation closure returned by `subscribe_to_topic`
(connector.hpp lines 108-116): scan for the first handle with the captured
`handle_id`, erase it and break; if none is found the loop falls through and
nothing changes. -/
def erase_subscriber : List subscriber_handle → Nat → List subscriber_handle
  | [], _ => []
  | sub :: rest, handle_id =>
      if sub.handle_id == handle_id then rest
      else sub :: erase_subscriber rest handle_id

/-- Invoking the subscriber revocation closure captured with `handle_id`. -/
def revoke_subscriber (st : ConnectorState) (handle_id : Nat) : ConnectorState :=
  { st with subscribers := erase_subscriber st.subscribers handle_id }

/-- Body of the revocation closure returned by `advertise_topic`
(connector.hpp lines 154-162). -/
def erase_publisher : List publisher_handle → Nat → List publisher_handle
  | [], _ => []
  | pub :: rest, handle_id =>
      if pub.handle_id == handle_id then rest
      else pub :: erase_publisher rest handle_id

/-- Invoking the publisher revocation closure captured with `handle_id`. -/
def revoke_publisher (st : ConnectorState) (handle_id : Nat) : ConnectorState :=
  { st with publishers := erase_publisher st.publishers handle_id }

/-- Result of `advertise_topic`: the new state, the `handle_id` captured by the
revocation closure, and the id of the shared publication captured (as a
`shared_ptr` copy) by the forward function assigned to `cb_in`. -/
structure AdvertiseResult where
  state : ConnectorState
  handle_id : Nat
  publisher : Nat
deriving Repr

/-- `Connector::advertise_topic` (connector.hpp lines 129-163).  QoS is
`rclcpp::QoS(params.history_depth)` made transient-local when `params.latch`;
an existing registration with equal params shares its publication, otherwise a
fresh one is created (QoS appended to the creation log); the new handle is
appended and `cb_in` is bound to a closure owning `handle.publisher`. -/
def advertise_topic (env : NodeEnv) (st : ConnectorState) (client_id : Nat)
    (params : topic_params) : AdvertiseResult :=
  let matching := get_publisher_by_params st.publishers params
  let handle_id := st.next_handler_id
  let qos0 : QoS :=
    { history_depth := params.history_depth
      durability := Durability.Volatile
      reliability := Reliability.Reliable }
  let qos := if params.latch then { qos0 with durability := Durability.TransientLocal } else qos0
  match matching with
  | none =>
      let handle : publisher_handle :=
        { publisher := st.next_resource_id
          params := params
          client_id := client_id
          handle_id := handle_id }
      { state :=
          { st with
            publishers := st.publishers ++ [handle]
            next_handler_id := handle_id + 1
            next_resource_id := st.next_resource_id + 1
            pub_creations := st.pub_creations ++ [qos] }
        handle_id := handle_id
        publisher := handle.publisher }
  | some m =>
      let handle : publisher_handle :=
        { publisher := m.publisher
          params := params
          client_id := client_id
          handle_id := handle_id }
      { state :=
          { st with
            publishers := st.publishers ++ [handle]
            next_handler_id := handle_id + 1 }
        handle_id := handle_id
        publisher := handle.publisher }

/-- The forward function `advertise_topic` assigns to `cb_in` (connector.hpp
lines 150-152): it owns a `shared_ptr` copy of the publication (here: its id
`pid`) and writes any given serialized message through it, unconditionally.  The
publish log is a list of `(publication id, message)` write events. -/
def forward_fn (pid : Nat) (message : Nat) (log : List (Nat × Nat)) : List (Nat × Nat) :=
  log ++ [(pid, message)]

/-- Shared-pointer liveness of a publication object: it is destroyed only when
its reference count drops to zero, i.e. it stays alive while some registry
handle references it or some still-held forward closure (the `held` list of
captured publication ids) references it. -/
def publication_alive (st : ConnectorState) (held : List Nat) (pid : Nat) : Bool :=
  st.publishers.any (fun h => h.publisher == pid) || held.contains pid

/-- The loop body of `Connector::topic_message_callback` (connector.hpp lines
213-219), walking the subscriber list with the dispatch key `params` and a
message `msg`.  `clock : Nat → Int` gives the reading of the k-th `node_->now()`
call during this dispatch and `k` is the index of the next call.  Per handle:
if `sub.params == params` fails, nothing happens and no `now()` is consumed
(short-circuit); otherwise, if `params.throttle_rate.nanoseconds() == 0` the
guard short-circuits (no `now()` consumed) and the message is delivered; else
the guard consumes one `now()` reading and delivers only when
`sub.last_sent + params.throttle_rate < now`.  A delivery invokes the callback
and then sets `last_sent` from a further `now()` call made after the callback
returns.  Returns the updated list, the delivery events
`(handle_id, new last_sent)` in list order, and the next `now()` index. -/
def process_subs (clock : Nat → Int) (params : topic_params) :
    List subscriber_handle → Nat → List subscriber_handle × List (Nat × Int) × Nat
  | [], k => ([], [], k)
  | sub :: rest, k =>
      if params_eq sub.params params then
        if params.throttle_rate == 0 then
          let sub' := { sub with last_sent := clock k }
          let r := process_subs clock params rest (k + 1)
          (sub' :: r.1, (sub.handle_id, clock k) :: r.2.1, r.2.2)
        else if sub.last_sent + params.throttle_rate < clock k then
          let sub' := { sub with last_sent := clock (k + 1) }
          let r := process_subs clock params rest (k + 2)
          (sub' :: r.1, (sub.handle_id, clock (k + 1)) :: r.2.1, r.2.2)
        else
          let r := process_subs clock params rest (k + 1)
          (sub :: r.1, r.2.1, r.2.2)
      else
        let r := process_subs clock params rest k
        (sub :: r.1, r.2.1, r.2.2)

/-- `Connector::topic_message_callback` (connector.hpp lines 210-220) on a state:
dispatch one inbound message keyed by `params`, starting at `now()`-call index 0. -/
def topic_message_callback (clock : Nat → Int) (st : ConnectorState)
    (params : topic_params) : ConnectorState × List (Nat × Int) :=
  let r := process_subs clock params st.subscribers 0
  ({ st with subscribers := r.1 }, r.2.1)

/-- State of the `fired` flag of the detached replay thread spawned by
`subscribe_to_topic` (connector.hpp lines 85-102) at spin iteration `n`:
`arrival = some j` means the temporary one-shot subscription delivers a retained
message (setting `fired = true` after invoking the handler) by iteration `j`;
`arrival = none` means no retained message ever arrives. -/
def replay_fired (arrival : Option Nat) (n : Nat) : Bool :=
  match arrival with
  | some j => decide (j ≤ n)
  | none => false

/-- Whether the spin loop `while (!fired) { std::this_thread::yield(); }` has
exited by iteration `n`: it exits exactly when `fired` has become true.  There is
no timeout path in the source. -/
def replay_exited (arrival : Option Nat) (n : Nat) : Bool :=
  replay_fired arrival n

/-- Whether `oneshot_sub.reset()` (connector.hpp line 101) — the release of the
temporary transport subscription — has run by iteration `n`: it is reached only
after the spin loop exits. -/
def replay_released (arrival : Option Nat) (n : Nat) : Bool :=
  replay_exited arrival n

/-- A sequence of `subscribe_to_topic` calls sharing one `params` value, each
with its own `(client_id, callback)` pair, threaded through the state. -/
def subscribe_seq (env : NodeEnv) (params : topic_params) :
    List (Nat × Nat) → ConnectorState → ConnectorState
  | [], st => st
  | (c, cb) :: rest, st =>
      subscribe_seq env params rest (subscribe_to_topic env st c params cb).state

/-- One call into the connector's public surface. -/
inductive ConnectorOp
  | subscribe (client_id : Nat) (params : topic_params) (callback : Nat)
  | advertise (client_id : Nat) (params : topic_params)
  | revokeSub (handle_id : Nat)
  | revokePub (handle_id : Nat)

/-- Run a sequence of connector operations, returning the final state and the
handle ids issued by the `subscribe`/`advertise` calls, in call order. -/
def run_ops (env : NodeEnv) : ConnectorState → List ConnectorOp → ConnectorState × List Nat
  | st, [] => (st, [])
  | st, ConnectorOp.subscribe c p cb :: rest =>
      let r := subscribe_to_topic env st c p cb
      let rec' := run_ops env r.state rest
      (rec'.1, r.handle_id :: rec'.2)
  | st, ConnectorOp.advertise c p :: rest =>
      let r := advertise_topic env st c p
      let rec' := run_ops env r.state rest
      (rec'.1, r.handle_id :: rec'.2)
  | st, ConnectorOp.revokeSub h :: rest => run_ops env (revoke_subscriber st h) rest
  | st, ConnectorOp.revokePub h :: rest => run_ops env (revoke_publisher st h) rest

/-- The number of handle-issuing operations in a sequence. -/
def creates : List ConnectorOp → Nat
  | [] => 0
  | ConnectorOp.subscribe _ _ _ :: rest => creates rest + 1
  | ConnectorOp.advertise _ _ :: rest => creates rest + 1
  | ConnectorOp.revokeSub _ :: rest => creates rest
  | ConnectorOp.revokePub _ :: rest => creates rest

/-! Example inputs used by witnesses and counterexamples. -/

/-- A node environment reporting no publishers on any topic. -/
def exEnv : NodeEnv := ⟨fun _ => []⟩

/-- A throttled topic-parameters value (throttle rate 5 ns). -/
def cexParams : topic_params :=
  { history_depth := 10, compression := "none", topic := "t", type := "T"
    latch := false, throttle_rate := 5 }

/-- A subscriber registration on `cexParams`, `last_sent = 0`. -/
def cexSub : subscriber_handle :=
  { subscription := 0, params := cexParams, callback := 0, client_id := 0
    handle_id := 7, last_sent := 0 }

/-- Topic parameters with an empty topic name. -/
def emptyTopicParams : topic_params :=
  { history_depth := 10, compression := "none", topic := "", type := "T"
    latch := false, throttle_rate := 0 }

/-- Topic parameters with an empty type name. -/
def emptyTypeParams : topic_params :=
  { history_depth := 10, compression := "none", topic := "t", type := ""
    latch := false, throttle_rate := 0 }

/-- A subscriber registration on `emptyTopicParams` (params different from
`cexParams`). -/
def cexSubOther : subscriber_handle :=
  { subscription := 3, params := emptyTopicParams, callback := 1, client_id := 1
    handle_id := 9, last_sent := 0 }

/-- A connector state holding two subscriber registrations with handle ids 0
and 1. -/
def exSt : ConnectorState :=
  { subscribers :=
      [{ subscription := 0, params := cexParams, callback := 0, client_id := 0
         handle_id := 0, last_sent := 0 },
       { subscription := 0, params := cexParams, callback := 1, client_id := 1
         handle_id := 1, last_sent := 0 }]
    publishers := []
    next_handler_id := 2
    next_resource_id := 1
    sub_creations := [{ history_depth := 10, durability := Durability.Volatile
                        reliability := Reliability.Reliable }]
    pub_creations := []
    spawned_replays := 0 }

/-! Helper lemmas. -/

/-- `topic_params::operator==` agrees with structural equality: all six fields
are compared and nothing else. -/
theorem params_eq_iff (a b : topic_params) : params_eq a b = true ↔ a = b := by
  cases a; cases b
  simp only [params_eq, Bool.and_eq_true, beq_iff_eq, topic_params.mk.injEq]
  tauto

/-- `operator==` is reflexive. -/
theorem params_eq_refl (a : topic_params) : params_eq a a = true :=
  (params_eq_iff a a).mpr rfl

/-- The QoS-derivation fold never touches the history depth. -/
theorem derive_qos_history_depth (depth : Nat) (info : List PubInfo) :
    (derive_qos depth info).history_depth = depth := by
  suffices h : ∀ (l : List PubInfo) (q : QoS),
      (l.foldl (fun q i =>
        { q with durability := i.durability, reliability := i.reliability }) q).history_depth
        = q.history_depth by
    exact h info _
  intro l
  induction l with
  | nil => intro q; rfl
  | cons i tl ih => intro q; exact ih _

/-- Appending one more publisher descriptor overwrites durability and
reliability with that descriptor's values (last wins). -/
theorem derive_qos_concat (depth : Nat) (info : List PubInfo) (d : PubInfo) :
    derive_qos depth (info ++ [d]) =
      { history_depth := depth, durability := d.durability, reliability := d.reliability } := by
  have h1 : derive_qos depth (info ++ [d]) =
      { derive_qos depth info with durability := d.durability, reliability := d.reliability } := by
    simp [derive_qos, List.foldl_concat]
  rw [h1]
  have h2 := derive_qos_history_depth depth info
  cases hq : derive_qos depth info
  simp_all

/-- `subscribe_to_topic` hands out the current `next_handler_id_` and
post-increments it, in both the create and the reuse branch. -/
theorem subscribe_handle_ids (env : NodeEnv) (st : ConnectorState) (c : Nat)
    (params : topic_params) (cb : Nat) :
    (subscribe_to_topic env st c params cb).handle_id = st.next_handler_id ∧
    (subscribe_to_topic env st c params cb).state.next_handler_id = st.next_handler_id + 1 := by
  unfold subscribe_to_topic
  cases get_subscriber_by_params st.subscribers params <;> exact ⟨rfl, rfl⟩

/-- `advertise_topic` hands out the current `next_handler_id_` and
post-increments it, in both branches. -/
theorem advertise_handle_ids (env : NodeEnv) (st : ConnectorState) (c : Nat)
    (params : topic_params) :
    (advertise_topic env st c params).handle_id = st.next_handler_id ∧
    (advertise_topic env st c params).state.next_handler_id = st.next_handler_id + 1 := by
  unfold advertise_topic
  cases get_publisher_by_params st.publishers params <;> exact ⟨rfl, rfl⟩

/-- Erasing a handle id that occurs nowhere in the list is a no-op (the loop
falls through without erasing). -/
theorem erase_subscriber_not_mem (subs : List subscriber_handle) (hid : Nat)
    (h : ∀ x ∈ subs, x.handle_id ≠ hid) : erase_subscriber subs hid = subs := by
  induction subs with
  | nil => rfl
  | cons s rest ih =>
      have hs : s.handle_id ≠ hid := h s (List.mem_cons_self _ _)
      simp only [erase_subscriber, beq_iff_eq, if_neg hs]
      rw [ih fun x hx => h x (List.mem_cons_of_mem _ hx)]

/-- Erasing removes exactly the first occurrence of the handle id, keeping
everything before and after it. -/
theorem erase_subscriber_first (pre post : List subscriber_handle)
    (s : subscriber_handle) (hid : Nat) (hs : s.handle_id = hid)
    (hpre : ∀ x ∈ pre, x.handle_id ≠ hid) :
    erase_subscriber (pre ++ s :: post) hid = pre ++ post := by
  induction pre with
  | nil => simp [erase_subscriber, hs]
  | cons a rest ih =>
      have ha : a.handle_id ≠ hid := hpre a (List.mem_cons_self _ _)
      simp only [List.cons_append, erase_subscriber, beq_iff_eq, if_neg ha]
      rw [List.append_eq, ih fun x hx => hpre x (List.mem_cons_of_mem _ hx)]

/-- Publisher version of `erase_subscriber_not_mem`. -/
theorem erase_publisher_not_mem (pubs : List publisher_handle) (hid : Nat)
    (h : ∀ x ∈ pubs, x.handle_id ≠ hid) : erase_publisher pubs hid = pubs := by
  induction pubs with
  | nil => rfl
  | cons s rest ih =>
      have hs : s.handle_id ≠ hid := h s (List.mem_cons_self _ _)
      simp only [erase_publisher, beq_iff_eq, if_neg hs]
      rw [ih fun x hx => h x (List.mem_cons_of_mem _ hx)]

/-- Publisher version of `erase_subscriber_first`. -/
theorem erase_publisher_first (pre post : List publisher_handle)
    (s : publisher_handle) (hid : Nat) (hs : s.handle_id = hid)
    (hpre : ∀ x ∈ pre, x.handle_id ≠ hid) :
    erase_publisher (pre ++ s :: post) hid = pre ++ post := by
  induction pre with
  | nil => simp [erase_publisher, hs]
  | cons a rest ih =>
      have ha : a.handle_id ≠ hid := hpre a (List.mem_cons_self _ _)
      simp only [List.cons_append, erase_publisher, beq_iff_eq, if_neg ha]
      rw [List.append_eq, ih fun x hx => hpre x (List.mem_cons_of_mem _ hx)]

/-- The handle ids issued along any operation sequence are the consecutive
integers starting at the state's `next_handler_id_`. -/
theorem run_ops_issued (env : NodeEnv) :
    ∀ (ops : List ConnectorOp) (st : ConnectorState),
      (run_ops env st ops).2 = List.range' st.next_handler_id (creates ops) := by
  intro ops
  induction ops with
  | nil => intro st; rfl
  | cons op rest ih =>
      intro st
      cases op with
      | subscribe c p cb =>
          have h := subscribe_handle_ids env st c p cb
          simp only [run_ops, creates, ih, h.1, h.2, List.range'_succ st.next_handler_id _ 1]
      | advertise c p =>
          have h := advertise_handle_ids env st c p
          simp only [run_ops, creates, ih, h.1, h.2, List.range'_succ st.next_handler_id _ 1]
      | revokeSub h => simp only [run_ops, creates, ih, revoke_subscriber]
      | revokePub h => simp only [run_ops, creates, ih, revoke_publisher]

/-- If every current registration carries `params` and shares subscription
`sid` (and there is at least one), then a whole sequence of further
`subscribe_to_topic` calls with `params` creates no transport subscription,
appends one registration per call, and every registration still carries
`params` and shares `sid`. -/
theorem subscribe_seq_inv (env : NodeEnv) (params : topic_params) :
    ∀ (l : List (Nat × Nat)) (st : ConnectorState) (sid : Nat),
      st.subscribers ≠ [] →
      (∀ h ∈ st.subscribers, h.params = params ∧ h.subscription = sid) →
      (subscribe_seq env params l st).subscribers.length = st.subscribers.length + l.length ∧
      (subscribe_seq env params l st).sub_creations = st.sub_creations ∧
      (subscribe_seq env params l st).subscribers ≠ [] ∧
      ∀ h ∈ (subscribe_seq env params l st).subscribers, h.params = params ∧ h.subscription = sid := by
  intro l
  induction l with
  | nil => intro st sid hne hinv; exact ⟨by simp [subscribe_seq], rfl, hne, hinv⟩
  | cons pr l ih =>
      obtain ⟨c, cb⟩ := pr
      intro st sid hne hinv
      obtain ⟨s0, rest, hst⟩ : ∃ s0 rest, st.subscribers = s0 :: rest := by
        cases hsubs : st.subscribers with
        | nil => exact absurd hsubs hne
        | cons a b => exact ⟨a, b, rfl⟩
      have hs0 := hinv s0 (by rw [hst]; exact List.mem_cons_self _ _)
      have hmatch : get_subscriber_by_params st.subscribers params = some s0 := by
        rw [hst]
        simp [get_subscriber_by_params, (params_eq_iff s0.params params).mpr hs0.1]
      have hsubs' : (subscribe_to_topic env st c params cb).state.subscribers =
          st.subscribers ++
            [{ subscription := s0.subscription, params := params, callback := cb
               client_id := c, handle_id := st.next_handler_id, last_sent := 0 }] := by
        simp [subscribe_to_topic, hmatch]
      have hcre : (subscribe_to_topic env st c params cb).state.sub_creations =
          st.sub_creations := by
        simp [subscribe_to_topic, hmatch]
      have hne' : (subscribe_to_topic env st c params cb).state.subscribers ≠ [] := by
        rw [hsubs']; simp
      have hinv' : ∀ h ∈ (subscribe_to_topic env st c params cb).state.subscribers,
          h.params = params ∧ h.subscription = sid := by
        rw [hsubs']
        intro h hh
        rcases List.mem_append.mp hh with h1 | h2
        · exact hinv h h1
        · rw [List.mem_singleton.mp h2]
          exact ⟨rfl, hs0.2⟩
      have hstep : subscribe_seq env params ((c, cb) :: l) st =
          subscribe_seq env params l (subscribe_to_topic env st c params cb).state := rfl
      have := ih (subscribe_to_topic env st c params cb).state sid hne' hinv'
      refine ⟨?_, ?_, by rw [hstep]; exact this.2.2.1, by rw [hstep]; exact this.2.2.2⟩
      · rw [hstep, this.1, hsubs']
        simp only [List.length_append, List.length_cons, List.length_nil]
        omega
      · rw [hstep, this.2.1, hcre]

/-- The first `subscribe_to_topic` call on a fresh connector, fully evaluated:
one transport subscription (id 0) is created and one registration appended. -/
theorem subscribe_init_eval (env : NodeEnv) (c cb : Nat) (p : topic_params) :
    (subscribe_to_topic env initState c p cb).state =
      { subscribers :=
          [{ subscription := 0, params := p, callback := cb, client_id := c
             handle_id := 0, last_sent := 0 }]
        publishers := []
        next_handler_id := 1
        next_resource_id := 1
        sub_creations := [derive_qos p.history_depth (env.pub_info p.topic)]
        pub_creations := []
        spawned_replays := 0 } := by
  simp [subscribe_to_topic, initState, get_subscriber_by_params]

/-- Claim C1: for every sequence of `subscribe_to_topic` calls with pairwise
equal topic parameters (a first call from a fresh connector followed by any
list of further `(client_id, callback)` calls, no interleaved revocations),
exactly one transport subscription is created via the node interface (the
shared subscription, id 0, created by the first call and reused by every later
call; the one-shot replay temporaries of the transient-local path are counted
separately as spawned replay tasks), and after `N = l.length + 1` calls the
subscriber registry holds exactly `N` registrations, each carrying `params`
and sharing subscription 0. -/
theorem C1_dedup_invariant (env : NodeEnv) (params : topic_params)
    (c0 cb0 : Nat) (l : List (Nat × Nat)) :
    (subscribe_seq env params l
        (subscribe_to_topic env initState c0 params cb0).state).sub_creations.length = 1 ∧
    (subscribe_seq env params l
        (subscribe_to_topic env initState c0 params cb0).state).subscribers.length = l.length + 1 ∧
    ∀ h ∈ (subscribe_seq env params l
        (subscribe_to_topic env initState c0 params cb0).state).subscribers,
      h.params = params ∧ h.subscription = 0 := by
  have hfirst := subscribe_init_eval env c0 cb0 params
  have hinv := subscribe_seq_inv env params l
    (subscribe_to_topic env initState c0 params cb0).state 0
    (by rw [hfirst]; simp)
    (by
      rw [hfirst]
      intro h hh
      rw [List.mem_singleton.mp hh]
      exact ⟨rfl, rfl⟩)
  refine ⟨?_, ?_, hinv.2.2.2⟩
  · rw [hinv.2.1, hfirst]
    rfl
  · rw [hinv.1, hfirst]
    simp [Nat.add_comm]

/-- Claim C1, witnessed at a concrete input: three equal-params subscribes
(one initial call plus two further calls) create one transport subscription
and three registrations, all sharing subscription 0. -/
theorem C1_dedup_invariant_witness :
    (subscribe_seq exEnv cexParams [(1, 1), (2, 2)]
        (subscribe_to_topic exEnv initState 0 cexParams 0).state).sub_creations.length = 1 ∧
    (subscribe_seq exEnv cexParams [(1, 1), (2, 2)]
        (subscribe_to_topic exEnv initState 0 cexParams 0).state).subscribers.length =
      [(1, 1), (2, 2)].length + 1 ∧
    ∀ h ∈ (subscribe_seq exEnv cexParams [(1, 1), (2, 2)]
        (subscribe_to_topic exEnv initState 0 cexParams 0).state).subscribers,
      h.params = cexParams ∧ h.subscription = 0 :=
  C1_dedup_invariant exEnv cexParams 0 0 [(1, 1), (2, 2)]

/-- Claim C4: `topic_params::operator==` holds iff all six fields match
exactly (no normalization, no partial matching); `get_subscriber_by_params`
and `get_publisher_by_params` return the first registration in insertion
order whose params compare equal, and this equality is the sole selection
criterion; two subscribes with different params (any single differing field
makes them different values) create two independent transport subscriptions. -/
theorem C4_params_equality (p q : topic_params) :
    (params_eq p q = true ↔ p = q) ∧
    (∀ (pre post : List subscriber_handle) (s : subscriber_handle),
        params_eq s.params p = true →
        (∀ x ∈ pre, params_eq x.params p = false) →
        get_subscriber_by_params (pre ++ s :: post) p = some s) ∧
    (∀ (pre post : List publisher_handle) (s : publisher_handle),
        params_eq s.params p = true →
        (∀ x ∈ pre, params_eq x.params p = false) →
        get_publisher_by_params (pre ++ s :: post) p = some s) ∧
    (p ≠ q → ∀ (env : NodeEnv) (c1 c2 cb1 cb2 : Nat),
        (subscribe_to_topic env (subscribe_to_topic env initState c1 p cb1).state
            c2 q cb2).state.sub_creations.length = 2 ∧
        (subscribe_to_topic env (subscribe_to_topic env initState c1 p cb1).state
            c2 q cb2).state.subscribers.map (fun h => h.subscription) = [0, 1]) := by
  refine ⟨params_eq_iff p q, ?_, ?_, ?_⟩
  · intro pre post s hs hpre
    induction pre with
    | nil => simp [get_subscriber_by_params, hs]
    | cons a rest ih =>
        have ha := hpre a (List.mem_cons_self _ _)
        simp only [List.cons_append, get_subscriber_by_params, ha, Bool.false_eq_true, if_false]
        exact ih fun x hx => hpre x (List.mem_cons_of_mem _ hx)
  · intro pre post s hs hpre
    induction pre with
    | nil => simp [get_publisher_by_params, hs]
    | cons a rest ih =>
        have ha := hpre a (List.mem_cons_self _ _)
        simp only [List.cons_append, get_publisher_by_params, ha, Bool.false_eq_true, if_false]
        exact ih fun x hx => hpre x (List.mem_cons_of_mem _ hx)
  · intro hne env c1 c2 cb1 cb2
    have hq : params_eq p q = false := by
      cases hpq : params_eq p q
      · rfl
      · exact absurd ((params_eq_iff p q).mp hpq) hne
    rw [subscribe_init_eval env c1 cb1 p]
    constructor <;> simp [subscribe_to_topic, get_subscriber_by_params, hq]

/-- Claim C4, witnessed at a concrete input: the first-match selection and the
distinctness of the transport subscriptions of two different params values. -/
theorem C4_params_equality_witness :
    get_subscriber_by_params ([cexSubOther] ++ cexSub :: []) cexParams = some cexSub ∧
    ((subscribe_to_topic exEnv
        (subscribe_to_topic exEnv initState 0 cexParams 1).state
        1 emptyTopicParams 2).state.sub_creations.length = 2 ∧
      (subscribe_to_topic exEnv
        (subscribe_to_topic exEnv initState 0 cexParams 1).state
        1 emptyTopicParams 2).state.subscribers.map (fun h => h.subscription) = [0, 1]) :=
  ⟨(C4_params_equality cexParams emptyTopicParams).2.1 [cexSubOther] [] cexSub
      (by decide) (by decide),
   (C4_params_equality cexParams emptyTopicParams).2.2.2 (by decide) exEnv 0 1 1 2⟩

/-- Claim C5 counterexample: the code performs no parameter validation.
Subscribing with an empty topic name, and advertising with an empty type name,
are not rejected: each creates a transport resource and appends a
registration, contradicting the claimed synchronous rejection. -/
theorem C5_counterexample :
    (subscribe_to_topic exEnv initState 0 emptyTopicParams 0).state.subscribers.length = 1 ∧
    (subscribe_to_topic exEnv initState 0 emptyTopicParams 0).state.sub_creations.length = 1 ∧
    (advertise_topic exEnv initState 0 emptyTypeParams).state.publishers.length = 1 ∧
    (advertise_topic exEnv initState 0 emptyTypeParams).state.pub_creations.length = 1 :=
  ⟨rfl, rfl, rfl, rfl⟩

/-- Claim C5 as amended: `subscribe_to_topic` and `advertise_topic` never
reject a call — for every params value, including empty topic or empty type,
a registration is appended (and a transport resource created or reused);
any rejection of invalid names would have to come from the transport layer. -/
theorem C5_no_validation (env : NodeEnv) (st : ConnectorState) (c cb : Nat)
    (params : topic_params) :
    (subscribe_to_topic env st c params cb).state.subscribers.length =
      st.subscribers.length + 1 ∧
    (advertise_topic env st c params).state.publishers.length =
      st.publishers.length + 1 := by
  constructor
  · unfold subscribe_to_topic
    cases get_subscriber_by_params st.subscribers params <;> simp
  · unfold advertise_topic
    cases get_publisher_by_params st.publishers params <;> simp

/-- Claim C6: invoking the revocation closure captured with `handle_id` removes
exactly the registration with that id (the unique one, given that ids are
issued uniquely: the scan erases the first occurrence and every registration
before and after it — including others with equal topic parameters — is left
unchanged), and invoking it when no registration carries the id any more (for
example a second time after the removal) is a no-op on the whole state and
never signals an error; both for the subscriber and the publisher registry. -/
theorem C6_revocation (st : ConnectorState) (hid : Nat) :
    (∀ (pre post : List subscriber_handle) (s : subscriber_handle),
        st.subscribers = pre ++ s :: post → s.handle_id = hid →
        (∀ x ∈ pre, x.handle_id ≠ hid) →
        (revoke_subscriber st hid).subscribers = pre ++ post) ∧
    ((∀ x ∈ st.subscribers, x.handle_id ≠ hid) → revoke_subscriber st hid = st) ∧
    (∀ (pre post : List publisher_handle) (s : publisher_handle),
        st.publishers = pre ++ s :: post → s.handle_id = hid →
        (∀ x ∈ pre, x.handle_id ≠ hid) →
        (revoke_publisher st hid).publishers = pre ++ post) ∧
    ((∀ x ∈ st.publishers, x.handle_id ≠ hid) → revoke_publisher st hid = st) := by
  refine ⟨?_, ?_, ?_, ?_⟩
  · intro pre post s hsubs hs hpre
    show erase_subscriber st.subscribers hid = pre ++ post
    rw [hsubs]
    exact erase_subscriber_first pre post s hid hs hpre
  · intro h
    show { st with subscribers := erase_subscriber st.subscribers hid } = st
    rw [erase_subscriber_not_mem st.subscribers hid h]
  · intro pre post s hpubs hs hpre
    show erase_publisher st.publishers hid = pre ++ post
    rw [hpubs]
    exact erase_publisher_first pre post s hid hs hpre
  · intro h
    show { st with publishers := erase_publisher st.publishers hid } = st
    rw [erase_publisher_not_mem st.publishers hid h]

/-- Claim C6, witnessed at a concrete state with two registrations sharing
equal topic parameters: revoking handle id 1 leaves the other registration in
place, and revoking an id that is no longer present is a no-op. -/
theorem C6_revocation_witness :
    (revoke_subscriber exSt 1).subscribers =
      [{ subscription := 0, params := cexParams, callback := 0, client_id := 0
         handle_id := 0, last_sent := 0 }] ++ [] ∧
    revoke_subscriber exSt 5 = exSt :=
  ⟨(C6_revocation exSt 1).1
      [{ subscription := 0, params := cexParams, callback := 0, client_id := 0
         handle_id := 0, last_sent := 0 }] []
      { subscription := 0, params := cexParams, callback := 1, client_id := 1
        handle_id := 1, last_sent := 0 }
      rfl rfl (by decide),
   (C6_revocation exSt 5).2.1 (by decide)⟩

/-- Claim C7: effective subscription QoS starts from the requested history
depth (volatile / reliable defaults) and each publisher descriptor reported by
the node interface overwrites durability and reliability in sequence, so the
last descriptor wins (never an average or strictest-wins merge); the derived
transient-local flag is true exactly when the resulting durability is
transient-local. -/
theorem C7_qos_last_wins (depth : Nat) (info : List PubInfo) (d : PubInfo) :
    derive_qos depth (info ++ [d]) =
      { history_depth := depth, durability := d.durability
        reliability := d.reliability } ∧
    (derive_qos depth info).history_depth = depth ∧
    derive_qos depth [] =
      { history_depth := depth, durability := Durability.Volatile
        reliability := Reliability.Reliable } ∧
    (is_transient_local (derive_qos depth info) = true ↔
      (derive_qos depth info).durability = Durability.TransientLocal) :=
  ⟨derive_qos_concat depth info d, derive_qos_history_depth depth info, rfl,
   by simp [is_transient_local]⟩

/-- Claim C8: over any sequence of connector operations starting from a fresh
connector, the handle ids issued by `subscribe_to_topic` and `advertise_topic`
are the consecutive values of the shared monotonically increasing counter:
in issue order they are strictly increasing, hence pairwise distinct, and a
revocation never decrements the counter, so an id is never reused. -/
theorem C8_handle_uniqueness (env : NodeEnv) (ops : List ConnectorOp) :
    (run_ops env initState ops).2 = List.range' 0 (creates ops) ∧
    (run_ops env initState ops).2.Pairwise (· < ·) ∧
    (run_ops env initState ops).2.Nodup := by
  have h := run_ops_issued env ops initState
  have hp : (run_ops env initState ops).2.Pairwise (· < ·) := by
    rw [h]
    exact List.pairwise_lt_range' 0 (creates ops)
  exact ⟨h, hp, hp.imp ne_of_lt⟩

/-- Claim C9 (code bug, evaluated): the detached replay thread's loop
`while (!fired) { std::this_thread::yield(); }` has no timeout path: when no
retained message ever arrives (`arrival = none`), the loop has not exited after
any number of iterations, and `oneshot_sub.reset()` — the release of the
temporary transport subscription — is never reached; when a message does
arrive at iteration `j` the loop exits from iteration `j` on.  This
contradicts the claimed bounded termination and release on a timeout path. -/
theorem C9_replay_spin_unbounded :
    (∀ n : Nat, replay_exited none n = false) ∧
    (∀ n : Nat, replay_released none n = false) ∧
    (∀ j n : Nat, replay_exited (some j) (j + n) = true) := by
  refine ⟨fun n => rfl, fun n => rfl, fun j n => ?_⟩
  simp [replay_exited, replay_fired]

/-- Claim C10: the forward function returned by `advertise_topic` owns its own
shared reference to the transport publication.  After revoking the (sole)
registration, the publisher registry is empty, yet the forward function still
writes the message through the publication, and the publication object is
still alive because the held forward closure references it. -/
theorem C10_forward_outlives_revocation (env : NodeEnv) (c : Nat)
    (params : topic_params) (msg : Nat) (log : List (Nat × Nat)) :
    (revoke_publisher (advertise_topic env initState c params).state
        (advertise_topic env initState c params).handle_id).publishers = [] ∧
    forward_fn (advertise_topic env initState c params).publisher msg log =
      log ++ [((advertise_topic env initState c params).publisher, msg)] ∧
    publication_alive
      (revoke_publisher (advertise_topic env initState c params).state
        (advertise_topic env initState c params).handle_id)
      [(advertise_topic env initState c params).publisher]
      (advertise_topic env initState c params).publisher = true := by
  have hpubs : (advertise_topic env initState c params).state.publishers =
      [{ publisher := 0, params := params, client_id := c, handle_id := 0 }] := by
    simp [advertise_topic, initState, get_publisher_by_params]
  have hhid : (advertise_topic env initState c params).handle_id = 0 := by
    simp [advertise_topic, initState, get_publisher_by_params]
  have hempty : (revoke_publisher (advertise_topic env initState c params).state
      (advertise_topic env initState c params).handle_id).publishers = [] := by
    show erase_publisher (advertise_topic env initState c params).state.publishers
        (advertise_topic env initState c params).handle_id = []
    rw [hpubs, hhid]
    simp [erase_publisher]
  refine ⟨hempty, rfl, ?_⟩
  rw [publication_alive, hempty]
  simp [List.contains]

/-- Claim C2 counterexample: with `throttleRate = 5` and `lastSent = 0`, at a
clock reading of exactly `lastSent + throttleRate = 5` the dispatch guard
`(sub.last_sent + params.throttle_rate) < node_->now()` is false, so the
message is NOT delivered — the claim asserts that at exact equality the
message is delivered. -/
theorem C2_throttle_counterexample :
    cexSub.last_sent + cexParams.throttle_rate = (fun _ : Nat => (5 : Int)) 0 ∧
    (process_subs (fun _ : Nat => (5 : Int)) cexParams [cexSub] 0).2.1 = [] :=
  ⟨by decide, by decide⟩

/-- Claim C2 as amended: a registration is throttled when `throttleRate` is
non-zero and `lastSent + throttleRate` has not yet strictly passed the current
clock reading (so at exact equality the message is NOT delivered: delivery
requires `lastSent + throttleRate < now`); consequently, with a monotone clock
and `throttleRate = T > 0`, the timestamp of any delivery strictly exceeds
`lastSent + T`, so two consecutive deliveries to the same registration are
more than — in particular at least — `T` apart. -/
theorem C2_throttle_amended (clock : Nat → Int) (params : topic_params)
    (sub : subscriber_handle) (k : Nat)
    (hmono : ∀ i j : Nat, i ≤ j → clock i ≤ clock j)
    (hmatch : params_eq sub.params params = true)
    (hT : params.throttle_rate ≠ 0) :
    ((process_subs clock params [sub] k).2.1 ≠ [] ↔
      sub.last_sent + params.throttle_rate < clock k) ∧
    ∀ e ∈ (process_subs clock params [sub] k).2.1,
      sub.last_sent + params.throttle_rate < e.2 := by
  have hTb : (params.throttle_rate == 0) = false := by
    simp [hT]
  by_cases hc : sub.last_sent + params.throttle_rate < clock k
  · have hev : (process_subs clock params [sub] k).2.1 =
        [(sub.handle_id, clock (k + 1))] := by
      simp [process_subs, hmatch, hTb, hc]
    constructor
    · rw [hev]
      simp [hc]
    · intro e he
      rw [hev] at he
      rw [List.mem_singleton.mp he]
      exact lt_of_lt_of_le hc (hmono k (k + 1) (Nat.le_succ k))
  · have hev : (process_subs clock params [sub] k).2.1 = [] := by
      simp [process_subs, hmatch, hTb, hc]
    constructor
    · rw [hev]
      simp [hc]
    · intro e he
      rw [hev] at he
      exact absurd he (List.not_mem_nil e)

/-- Claim C2 (amended), witnessed at a concrete input: clock reading 100 with
`lastSent + throttleRate = 5` delivers, and the delivery timestamp strictly
exceeds `lastSent + throttleRate`. -/
theorem C2_throttle_amended_witness :
    ((process_subs (fun n : Nat => (100 : Int) + n) cexParams [cexSub] 0).2.1 ≠ [] ↔
      cexSub.last_sent + cexParams.throttle_rate < (fun n : Nat => (100 : Int) + n) 0) ∧
    ∀ e ∈ (process_subs (fun n : Nat => (100 : Int) + n) cexParams [cexSub] 0).2.1,
      cexSub.last_sent + cexParams.throttle_rate < e.2 :=
  C2_throttle_amended (fun n : Nat => (100 : Int) + n) cexParams cexSub 0
    (by intro i j h; simp; omega) (by decide) (by decide)

/-- Claim C3 counterexample: with the clock advancing between the guard's
`now()` call (reading 10) and the post-callback `now()` call (reading 11) —
i.e. the callback takes time — `lastSent` ends up 11, the post-callback
reading, not the dispatch-time reading 10 used in the throttle comparison. -/
theorem C3_last_sent_counterexample :
    ((process_subs (fun n : Nat => (10 : Int) + n) cexParams [cexSub] 0).1.map
        (fun s => s.last_sent) = [11]) ∧
    ((11 : Int) ≠ (fun n : Nat => (10 : Int) + n) 0) :=
  ⟨by decide, by decide⟩

/-- Claim C3 as amended: on a delivery to a throttled registration, the guard
consumes one clock reading (`clock k`) and `lastSent` is then set from a
second `now()` call made after the callback returns (`clock (k+1)`), not from
the dispatch-time reading used in the throttle comparison; the callback's own
duration therefore lengthens the effective throttle interval. -/
theorem C3_last_sent_amended (clock : Nat → Int) (params : topic_params)
    (sub : subscriber_handle) (k : Nat)
    (hmatch : params_eq sub.params params = true)
    (hT : params.throttle_rate ≠ 0)
    (hpass : sub.last_sent + params.throttle_rate < clock k) :
    (process_subs clock params [sub] k).1 = [{ sub with last_sent := clock (k + 1) }] ∧
    (process_subs clock params [sub] k).2.2 = k + 2 := by
  have hTb : (params.throttle_rate == 0) = false := by
    simp [hT]
  constructor <;> simp [process_subs, hmatch, hTb, hpass]

/-- Claim C3 (amended), witnessed at a concrete input. -/
theorem C3_last_sent_amended_witness :
    (process_subs (fun n : Nat => (10 : Int) + n) cexParams [cexSub] 0).1 =
      [{ cexSub with last_sent := (fun n : Nat => (10 : Int) + n) (0 + 1) }] ∧
    (process_subs (fun n : Nat => (10 : Int) + n) cexParams [cexSub] 0).2.2 = 0 + 2 :=
  C3_last_sent_amended (fun n : Nat => (10 : Int) + n) cexParams cexSub 0
    (by decide) (by decide) (by decide)

end rws
